import Mathlib

/-!
# Verification of the squirli-backend trust-and-access subsystem

A shallow embedding, in Lean 4, of the security services of the
squirli-backend repository:

* `TwoFactorService` (TOTP generation/verification, backup codes),
* `GeoLocationService` (IP resolution cache, login anomaly detection),
* `IPBlacklistService` (in-memory reputation cache with expiry),
* `AuditService` (audit statistics).

JavaScript-specific semantics that the TypeScript source relies on
(string/number truthiness, `Map` operations, 32-bit coercion of bitwise
operators) are modelled explicitly by the `js*` helpers below.  Wall-clock
time (`Date.now()`) is passed as an explicit `nowMs : Nat` parameter
(milliseconds since the epoch).  External collaborators without algorithmic
content (the PBKDF2 password hash, AES decryption of the stored secret, the
network geolocation provider, the Prisma record store) are passed as
explicit function/state parameters; everything algorithmic — including
HMAC-SHA1, which `crypto.createHmac('sha1', …)` provides in the source — is
implemented concretely.
-/

set_option autoImplicit false

namespace Squirli

/-! ## JavaScript semantics helpers -/

/-- JS truthiness of an optional string (`undefined`/`null` and `""` are
falsy). -/
def jsStrTruthy : Option String → Bool
  | none => false
  | some s => s ≠ ""

/-- JS `a || b` for optional strings: the fallback is used when the field is
missing or the empty string. -/
def jsOrS (o : Option String) (dflt : String) : String :=
  match o with
  | none => dflt
  | some s => if s = "" then dflt else s

/-- JS `a || b` for optional numbers (missing and `0` are falsy). -/
def jsOrQ (o : Option ℚ) (dflt : ℚ) : ℚ :=
  match o with
  | none => dflt
  | some x => if x = 0 then dflt else x

/-- JS `a || b` for optional booleans. -/
def jsOrB (o : Option Bool) (dflt : Bool) : Bool :=
  match o with
  | none => dflt
  | some b => if b then b else dflt

/-- A JS `Map` with string keys, as an association list (first entry for a
key wins, as `Map.get` returns the unique entry). -/
abbrev JsMap (α : Type) : Type := List (String × α)

/-- `Map.prototype.get`. -/
def jsMapGet {α : Type} (m : JsMap α) (k : String) : Option α :=
  match m with
  | [] => none
  | (k', v) :: rest => if k' = k then some v else jsMapGet rest k

/-- `Map.prototype.set`: replaces the entry for `k` in place, or appends a
new entry. -/
def jsMapSet {α : Type} (m : JsMap α) (k : String) (v : α) : JsMap α :=
  match m with
  | [] => [(k, v)]
  | (k', v') :: rest =>
      if k' = k then (k, v) :: rest else (k', v') :: jsMapSet rest k v

/-- `Map.prototype.delete`. -/
def jsMapDelete {α : Type} (m : JsMap α) (k : String) : JsMap α :=
  match m with
  | [] => []
  | (k', v') :: rest =>
      if k' = k then rest else (k', v') :: jsMapDelete rest k

/-- Whether the second list is an initial segment of the first (helper for
`strStartsWith`). -/
def listStartsWith : List Char → List Char → Bool
  | _, [] => true
  | [], _ :: _ => false
  | c :: cs, p :: ps => c = p && listStartsWith cs ps

/-- `String.prototype.startsWith` / an anchored `^…` regex test, over the
string's characters (kernel-reducible, unlike `String.startsWith`). -/
def strStartsWith (s pre : String) : Bool :=
  listStartsWith s.toList pre.toList

/-- `new Set(list)` followed by `Array.from`: deduplicate keeping the first
occurrence of each element, in order. -/
def jsSetDedup : List String → List String
  | [] => []
  | x :: rest => x :: ((jsSetDedup rest).filter (fun y => y ≠ x))

/-! ## SHA-1 and HMAC-SHA1

`TwoFactorService.generateTOTP` uses node's `crypto.createHmac('sha1', key)`.
We implement SHA-1 (FIPS 180-4) over byte lists, with 32-bit words as `Nat`
values kept below `2^32`. -/

/-- Rotate a 32-bit word left by `n` bits. -/
def rotl32 (x n : Nat) : Nat :=
  (x * 2 ^ n + x / 2 ^ (32 - n)) % 4294967296

/-- Bitwise complement of a 32-bit word. -/
def not32 (x : Nat) : Nat := x ^^^ 4294967295

/-- The five-word SHA-1 state. -/
structure Sha1State where
  h0 : Nat
  h1 : Nat
  h2 : Nat
  h3 : Nat
  h4 : Nat
  deriving Repr, DecidableEq

/-- SHA-1 initial state. -/
def sha1Init : Sha1State :=
  ⟨0x67452301, 0xEFCDAB89, 0x98BADCFE, 0x10325476, 0xC3D2E1F0⟩

/-- Big-endian bytes of a value, most significant first. -/
def bytesBE (width n : Nat) : List Nat :=
  (List.range width).map (fun i => n / 2 ^ (8 * (width - 1 - i)) % 256)

/-- The sixteen 32-bit big-endian words of a 64-byte block. -/
def sha1BlockWords (blk : List Nat) : List Nat :=
  (List.range 16).map (fun i =>
    blk.getD (4 * i) 0 * 16777216 + blk.getD (4 * i + 1) 0 * 65536 +
      blk.getD (4 * i + 2) 0 * 256 + blk.getD (4 * i + 3) 0)

/-- Message-schedule extension: grow the word list to 80 entries with
`w[i] = rotl1 (w[i-3] xor w[i-8] xor w[i-14] xor w[i-16])`. -/
def sha1Extend (w : List Nat) : Nat → List Nat
  | 0 => w
  | n + 1 =>
      let w' := sha1Extend w n
      let i := w'.length
      w' ++ [rotl32 (w'.getD (i - 3) 0 ^^^ w'.getD (i - 8) 0 ^^^
        w'.getD (i - 14) 0 ^^^ w'.getD (i - 16) 0) 1]

/-- The round function and constant for SHA-1 round `i`. -/
def sha1FK (i b c d : Nat) : Nat × Nat :=
  if i < 20 then ((b &&& c) ||| (not32 b &&& d), 0x5A827999)
  else if i < 40 then (b ^^^ c ^^^ d, 0x6ED9EBA1)
  else if i < 60 then ((b &&& c) ||| (b &&& d) ||| (c &&& d), 0x8F1BBCDC)
  else (b ^^^ c ^^^ d, 0xCA62C1D6)

/-- One SHA-1 compression round. -/
def sha1Round (w : List Nat) (st : Nat × Nat × Nat × Nat × Nat) (i : Nat) :
    Nat × Nat × Nat × Nat × Nat :=
  let (a, b, c, d, e) := st
  let (f, k) := sha1FK i b c d
  let temp := (rotl32 a 5 + f + e + k + w.getD i 0) % 4294967296
  (temp, a, rotl32 b 30, c, d)

/-- Compress one 64-byte block into the running state. -/
def sha1Compress (st : Sha1State) (blk : List Nat) : Sha1State :=
  let w := sha1Extend (sha1BlockWords blk) 64
  let (a, b, c, d, e) :=
    (List.range 80).foldl (sha1Round w) (st.h0, st.h1, st.h2, st.h3, st.h4)
  ⟨(st.h0 + a) % 4294967296, (st.h1 + b) % 4294967296,
   (st.h2 + c) % 4294967296, (st.h3 + d) % 4294967296,
   (st.h4 + e) % 4294967296⟩

/-- Fold the compression function over all 64-byte blocks.  The first
argument is fuel (the number of blocks still to process), so that the
recursion is structural and the function reduces inside the kernel. -/
def sha1Blocks : Nat → Sha1State → List Nat → Sha1State
  | 0, st, _ => st
  | fuel + 1, st, msg =>
      sha1Blocks fuel (sha1Compress st (msg.take 64)) (msg.drop 64)

/-- SHA-1 padding: `0x80`, zeros to 56 mod 64, then the 8-byte big-endian
bit length. -/
def sha1Pad (msg : List Nat) : List Nat :=
  let z := (64 + 56 - (msg.length + 1) % 64) % 64
  msg ++ [0x80] ++ List.replicate z 0 ++ bytesBE 8 (msg.length * 8)

/-- SHA-1 of a byte list, as a 20-byte digest. -/
def sha1 (msg : List Nat) : List Nat :=
  let padded := sha1Pad msg
  let st := sha1Blocks (padded.length / 64) sha1Init padded
  bytesBE 4 st.h0 ++ bytesBE 4 st.h1 ++ bytesBE 4 st.h2 ++
    bytesBE 4 st.h3 ++ bytesBE 4 st.h4

/-- HMAC-SHA1 (RFC 2104), the algorithm behind
`crypto.createHmac('sha1', key).update(msg).digest()`. -/
def hmacSha1 (key msg : List Nat) : List Nat :=
  let key' := if 64 < key.length then sha1 key else key
  let padded := key' ++ List.replicate (64 - key'.length) 0
  let ipad := padded.map (fun b => b ^^^ 0x36)
  let opad := padded.map (fun b => b ^^^ 0x5C)
  sha1 (opad ++ sha1 (ipad ++ msg))

/-! ## TwoFactorService: TOTP engine (src/unnamed/part_007) -/

/-- The base32 alphabet used by `base32Decode`. -/
def base32Chars : List Char := "ABCDEFGHIJKLMNOPQRSTUVWXYZ234567".toList

/-- One step of `TwoFactorService.base32Decode`'s accumulator loop.  The JS
accumulator `value` lives in 32-bit space (`value = (value << 5) | index`
coerces through `ToInt32`), so it is kept modulo `2^32`; the extracted byte
`(value >>> (bits - 8)) & 0xff` only ever reads the low `bits < 32` bits,
which the wrap-around never disturbs. -/
def base32Step (st : Nat × Nat × List Nat) (ch : Char) : Nat × Nat × List Nat :=
  let (bits, value, out) := st
  match base32Chars.findIdx? (fun c => c = ch.toUpper) with
  | none => (bits, value, out)
  | some index =>
      let value' := (value * 32 ||| index) % 4294967296
      let bits' := bits + 5
      if 8 ≤ bits' then
        (bits' - 8, value', out ++ [value' / 2 ^ (bits' - 8) % 256])
      else
        (bits', value', out)

/-- `TwoFactorService.base32Decode` (part_007 lines 38-59): decode a base32
string to bytes, silently skipping characters outside the alphabet. -/
def base32Decode (encoded : String) : List Nat :=
  (encoded.toList.foldl base32Step (0, 0, [])).2.2

/-- The 8-byte big-endian counter buffer built by the `for` loop in
`generateTOTP` (part_007 lines 64-69): `buffer[7-i] = counter & 0xff;
counter = counter >> 8`.  For the counter values producible before the year
30000 the JS 32-bit coercion of `&`/`>>` agrees with plain `Nat`
arithmetic modulo/division by 256 on `counter % 2^32`. -/
def counterBuffer (counter : Nat) : List Nat :=
  bytesBE 8 (counter % 4294967296)

/-- `String.prototype.padStart(6, '0')`. -/
def padStart6 (s : String) : String :=
  if s.length < 6 then String.mk (List.replicate (6 - s.length) '0') ++ s else s

/-- `TwoFactorService.generateTOTP(secret, timeStep)` (part_007 lines
62-84), with `Date.now()` passed explicitly as `nowMs`. -/
def generateTOTP (secret : String) (timeStep : Nat) (nowMs : Nat) : String :=
  let counter := nowMs / 1000 / timeStep
  let buffer := counterBuffer counter
  let key := base32Decode secret
  let hash := hmacSha1 key buffer
  let offset := hash.getD (hash.length - 1) 0 &&& 0xf
  let code := (hash.getD offset 0 &&& 0x7f) * 16777216 |||
    hash.getD (offset + 1) 0 * 65536 |||
    hash.getD (offset + 2) 0 * 256 |||
    hash.getD (offset + 3) 0
  padStart6 (Nat.repr (code % 1000000))

/-- `TwoFactorService.verifyTOTP(secret, code, window)` (part_007 lines
87-99).  The source iterates `i` from `-window` to `window` but the loop
body ignores `i`: `expectedCode = this.generateTOTP(secret, timeStep)`
always evaluates at the current time step.  The unused binder `_i` mirrors
that. -/
def verifyTOTP (secret code : String) (window : Nat) (nowMs : Nat) : Bool :=
  let timeStep := 30
  ((List.range (2 * window + 1)).map
      (fun (k : Nat) => (k : Int) - (window : Int))).any
    (fun _i => code == generateTOTP secret timeStep nowMs)

/-! ## TwoFactorService: 2FA verification with backup codes -/

/-- The subset of the stored `user` row read and written by
`verify2FACode`: `twoFactorEnabled`, `twoFactorSecret` (nullable),
`twoFactorBackupCodes` (list of stored hashes). -/
structure TwoFactorUser where
  twoFactorEnabled : Bool
  twoFactorSecret : Option String
  twoFactorBackupCodes : List String
  deriving Repr, DecidableEq

/-- Result shape of `verify2FACode`. -/
structure Verify2FAResult where
  success : Bool
  isBackupCode : Bool
  deriving Repr, DecidableEq

/-- `EncryptionService.hash(data, salt?)` (staged with
funnyResponsesService.ts, lines 583-597):
`useSalt = salt || crypto.randomBytes(32).toString('hex')` — a missing or
empty salt is JS-falsy and is replaced by a fresh random salt.  The
PBKDF2 primitive is the parameter `hashFn : data → salt → hash`; the
`randomBytes` draw backing the fallback is the explicit `freshSalt`
parameter.  Returns the `{hash, salt}` pair. -/
def encHash (hashFn : String → String → String) (freshSalt : String)
    (data salt : String) : String × String :=
  let useSalt := if salt = "" then freshSalt else salt
  (hashFn data useSalt, useSalt)

/-- `EncryptionService.verifyHash(data, hash, salt)` (lines 599-610):
recompute `this.hash(data, salt)` — so the JS-falsy salt `''` that
`verify2FACode` always passes is replaced by this call's fresh random
draw `freshSalt` — and compare the result with the stored hash.
`crypto.timingSafeEqual` on the equal-length hex digests the service
produces is plain equality, and its length-mismatch exception is caught
and turned into `false`, which string equality also gives. -/
def verifyHash (hashFn : String → String → String) (freshSalt : String)
    (data hash salt : String) : Bool :=
  (encHash hashFn freshSalt data salt).1 == hash

/-- The backup-code loop of `verify2FACode` (part_007 lines 177-191): the
index of the first stored hash for which
`EncryptionService.verifyHash(code, codes[i], '')` returns true, if any.
Every iteration passes the empty salt, so the comparison at index `i`
recomputes the hash under that iteration's fresh random salt
`salts i`. -/
def firstMatchingBackupCode (hashFn : String → String → String)
    (salts : Nat → String) (code : String) : List String → Option Nat
  | [] => none
  | stored :: rest =>
      if verifyHash hashFn (salts 0) code stored "" then some 0
      else
        (firstMatchingBackupCode hashFn (fun i => salts (i + 1)) code
          rest).map (· + 1)

/-- `TwoFactorService.verify2FACode(userId, code)` (part_007 lines
154-199), with the stored user row passed in and the updated row passed
out (the `prisma.user.update` write).  `decrypt` stands for
`EncryptionService.decrypt`, `hashFn` for the PBKDF2 primitive, and
`salts i` for the fresh `crypto.randomBytes` salt drawn by the i-th
backup-code comparison of this call. -/
def verify2FACode (decrypt : String → String)
    (hashFn : String → String → String) (salts : Nat → String)
    (nowMs : Nat) (user : TwoFactorUser) (code : String) :
    Verify2FAResult × TwoFactorUser :=
  if ¬ (user.twoFactorEnabled ∧ jsStrTruthy user.twoFactorSecret) then
    (⟨false, false⟩, user)
  else
    let secret := decrypt (user.twoFactorSecret.getD "")
    if verifyTOTP secret code 1 nowMs then
      (⟨true, false⟩, user)
    else
      match firstMatchingBackupCode hashFn salts code
          user.twoFactorBackupCodes with
      | some i =>
          (⟨true, true⟩,
           { user with
              twoFactorBackupCodes := user.twoFactorBackupCodes.eraseIdx i })
      | none => (⟨false, false⟩, user)

/-! ## GeoLocationService (src/src/services/geoLocationService.ts) -/

/-- The `GeoLocation` interface (geoLocationService.ts lines 9-27).  The
`as` field of the source is named `asInfo` here (`as` reads poorly as a
field name in Lean); latitude/longitude are rationals. -/
structure GeoLocation where
  ip : String
  country : String
  countryCode : String
  region : String
  regionCode : String
  city : String
  zip : String
  latitude : ℚ
  longitude : ℚ
  timezone : String
  isp : String
  org : String
  asInfo : String
  proxy : Bool
  hosting : Bool
  vpn : Bool
  tor : Bool
  deriving Repr, DecidableEq

/-- Anomaly type tags of the `LocationAnomaly` interface. -/
inductive AnomalyType where
  | COUNTRY_CHANGE | REGION_CHANGE | CITY_CHANGE
  | SUSPICIOUS_PROXY | UNUSUAL_TIME | HIGH_RISK_COUNTRY
  deriving Repr, DecidableEq

/-- Severity levels shared by anomalies and security-log events. -/
inductive Severity where
  | LOW | MEDIUM | HIGH | CRITICAL
  deriving Repr, DecidableEq

/-- The `LocationAnomaly` interface (geoLocationService.ts lines 29-39),
with the `details` object flattened into its three used fields. -/
structure LocationAnomaly where
  type : AnomalyType
  severity : Severity
  description : String
  currentLocation : GeoLocation
  previousLocation : Option GeoLocation
  riskScore : ℚ
  deriving Repr, DecidableEq

/-- `GeoLocationService.HIGH_RISK_COUNTRIES` (lines 45-51). -/
def HIGH_RISK_COUNTRIES : List String := ["KP", "IR", "SY", "CU", "RU"]

/-- `GeoLocationService.CACHE_DURATION`: 24 hours in milliseconds. -/
def CACHE_DURATION : Nat := 24 * 60 * 60 * 1000

/-- `GeoLocationService.isLocalIP` (lines 248-260).  The regex alternation
`/^172\.(1[6-9]|2[0-9]|3[0-1])\./` is expanded into the equivalent list of
string prefixes `172.16.` … `172.31.`. -/
def isLocalIP (ip : String) : Bool :=
  strStartsWith ip "127." || strStartsWith ip "10." ||
    ((List.range 16).any (fun k =>
      strStartsWith ip ("172." ++ Nat.repr (16 + k) ++ "."))) ||
    strStartsWith ip "192.168." || strStartsWith ip "169.254." ||
    ip == "::1" || strStartsWith ip "fe80:"

/-- `GeoLocationService.getLocalLocation` (lines 263-283). -/
def getLocalLocation (ip : String) : GeoLocation :=
  { ip := ip, country := "Local", countryCode := "LOCAL",
    region := "Local Network", regionCode := "LOCAL", city := "Local",
    zip := "", latitude := 0, longitude := 0, timezone := "UTC",
    isp := "Local Network", org := "Local Network", asInfo := "Local",
    proxy := false, hosting := false, vpn := false, tor := false }

/-- The fields of the ip-api.com JSON body read by `getLocation`; absent
fields are `none` (JS `undefined`). -/
structure ProviderData where
  country : Option String
  countryCode : Option String
  region : Option String
  regionName : Option String
  city : Option String
  zip : Option String
  lat : Option ℚ
  lon : Option ℚ
  timezone : Option String
  isp : Option String
  org : Option String
  asInfo : Option String
  proxy : Option Bool
  hosting : Option Bool
  deriving Repr, DecidableEq

/-- An axios response from the provider: `status` field plus data.  A
thrown error / timeout is modelled as `none` at the call site. -/
structure ProviderResponse where
  status : String
  data : ProviderData
  deriving Repr, DecidableEq

/-- The `GeoLocation` value built from a successful provider response
(geoLocationService.ts lines 84-102), with the JS `||` fallbacks. -/
def buildLocation (ip : String) (d : ProviderData) : GeoLocation :=
  { ip := ip
    country := jsOrS d.country "Unknown"
    countryCode := jsOrS d.countryCode "XX"
    region := jsOrS d.regionName "Unknown"
    regionCode := jsOrS d.region "XX"
    city := jsOrS d.city "Unknown"
    zip := jsOrS d.zip ""
    latitude := jsOrQ d.lat 0
    longitude := jsOrQ d.lon 0
    timezone := jsOrS d.timezone "UTC"
    isp := jsOrS d.isp "Unknown"
    org := jsOrS d.org "Unknown"
    asInfo := jsOrS d.asInfo "Unknown"
    proxy := jsOrB d.proxy false
    hosting := jsOrB d.hosting false
    vpn := jsOrB d.proxy false
    tor := false }

/-- The geolocation cache: IP → (data, insertion timestamp). -/
abbrev GeoCache : Type := JsMap (GeoLocation × Nat)

/-- `GeoLocationService.getLocation(ipAddress)` (lines 64-116), with
`Date.now()` as `nowMs` and the single outbound provider call's outcome as
`provider` (`none` = the axios call threw / timed out; the `catch` turns
that into a `null` return).  Returns the result together with the cache
after the call.  Mirrors the source's order: cache check first, then the
local-IP short-circuit, then the provider. -/
def getLocation (nowMs : Nat) (cache : GeoCache)
    (provider : Option ProviderResponse) (ip : String) :
    Option GeoLocation × GeoCache :=
  let onMiss :=
    if isLocalIP ip then (some (getLocalLocation ip), cache)
    else
      match provider with
      | none => (none, cache)
      | some resp =>
          if resp.status = "success" then
            let location := buildLocation ip resp.data
            (some location, jsMapSet cache ip (location, nowMs))
          else (none, cache)
  match jsMapGet cache ip with
  | some (dat, ts) => if nowMs - ts < CACHE_DURATION then (some dat, cache) else onMiss
  | none => onMiss

/-- `GeoLocationService.detectAnomalies(userId, currentIP)` (lines
119-227).  `resolve` stands for what `this.getLocation` returns for each
IP during this call; `previousLogins` is the list of `ipAddress` values of
the user's recent successful LOGIN audit rows, most recent first (the
prisma query orders by timestamp desc, takes 5, distinct by ipAddress);
`currentHour` is `new Date().getHours()`. -/
def detectAnomalies (resolve : String → Option GeoLocation)
    (previousLogins : List String) (currentHour : Nat) (currentIP : String) :
    List LocationAnomaly :=
  match resolve currentIP with
  | none => []
  | some currentLocation =>
      if previousLogins.isEmpty then []
      else
        let previousIPs := jsSetDedup (previousLogins.filter (fun s => s ≠ ""))
        let previousLocations := previousIPs.map resolve
        let prev0 : Option GeoLocation := (previousLocations.getD 0 none)
        let countryAnoms :=
          match prev0 with
          | some p =>
              if p.countryCode ≠ "" ∧ p.countryCode ≠ currentLocation.countryCode then
                [{ type := AnomalyType.COUNTRY_CHANGE, severity := Severity.HIGH,
                   description := "Login from different country: " ++
                     currentLocation.country ++ " (" ++ currentLocation.countryCode ++ ")",
                   currentLocation := currentLocation,
                   previousLocation := some p, riskScore := 0.8 }]
              else []
          | none => []
        let regionAnoms :=
          match prev0 with
          | some p =>
              if p.regionCode ≠ "" ∧ p.regionCode ≠ currentLocation.regionCode then
                [{ type := AnomalyType.REGION_CHANGE, severity := Severity.MEDIUM,
                   description := "Login from different region: " ++
                     currentLocation.region,
                   currentLocation := currentLocation,
                   previousLocation := some p, riskScore := 0.6 }]
              else []
          | none => []
        let proxyAnoms :=
          if currentLocation.proxy || currentLocation.vpn then
            [{ type := AnomalyType.SUSPICIOUS_PROXY, severity := Severity.MEDIUM,
               description := "Login from proxy/VPN detected",
               currentLocation := currentLocation,
               previousLocation := none, riskScore := 0.7 }]
          else []
        let riskAnoms :=
          if HIGH_RISK_COUNTRIES.contains currentLocation.countryCode then
            [{ type := AnomalyType.HIGH_RISK_COUNTRY, severity := Severity.CRITICAL,
               description := "Login from high-risk country: " ++
                 currentLocation.country,
               currentLocation := currentLocation,
               previousLocation := none, riskScore := 0.9 }]
          else []
        let timeAnoms :=
          if currentHour < 6 ∨ 23 < currentHour then
            [{ type := AnomalyType.UNUSUAL_TIME, severity := Severity.LOW,
               description := "Login at unusual hour: " ++
                 Nat.repr currentHour ++ ":00",
               currentLocation := currentLocation,
               previousLocation := none, riskScore := 0.3 }]
          else []
        countryAnoms ++ regionAnoms ++ proxyAnoms ++ riskAnoms ++ timeAnoms

/-! ## AuditService (src/src/services/auditService.ts lines 1-224) -/

/-- The fields of an `auditLog` row consulted by `getAuditStats`. -/
structure AuditRow where
  timestamp : Int
  success : Bool
  deriving Repr, DecidableEq

/-- The fields of a `securityLog` row consulted by `getAuditStats`. -/
structure SecurityRow where
  timestamp : Int
  deriving Repr, DecidableEq

/-- Result shape of `AuditService.getAuditStats`. -/
structure AuditStats where
  totalActions : Nat
  failedActions : Nat
  securityEvents : Nat
  successRate : ℚ
  deriving Repr, DecidableEq

/-- `AuditService.getAuditStats(days)` (auditService.ts lines 171-196)
over the record store's contents.  `startDate` is the cutoff the source
computes from `days` by calendar arithmetic (`setDate(getDate() - days)`);
the three `count` queries become filters, and `successRate` is the guarded
percentage of line 194. -/
def getAuditStats (startDate : Int) (auditLog : List AuditRow)
    (securityLog : List SecurityRow) : AuditStats :=
  let totalActions :=
    (auditLog.filter (fun r => decide (startDate ≤ r.timestamp))).length
  let failedActions :=
    (auditLog.filter
      (fun r => decide (startDate ≤ r.timestamp) && !r.success)).length
  let securityEvents :=
    (securityLog.filter (fun r => decide (startDate ≤ r.timestamp))).length
  { totalActions := totalActions
    failedActions := failedActions
    securityEvents := securityEvents
    successRate :=
      if 0 < totalActions then
        (((totalActions : ℚ) - (failedActions : ℚ)) / (totalActions : ℚ)) * 100
      else 0 }

/-! ## IPBlacklistService (src/src/services/auditService.ts lines 224-488) -/

/-- A value of the in-memory `blacklistCache` map:
`{ reason, expiresAt }` with `expiresAt : Date | null` as milliseconds. -/
structure BlacklistCacheEntry where
  reason : String
  expiresAt : Option Nat
  deriving Repr, DecidableEq

/-- `source` column of a persisted blacklist row. -/
inductive BlacklistSource where
  | MANUAL | AUTOMATIC | SYSTEM
  deriving Repr, DecidableEq

/-- A persisted `iPBlacklist` row. -/
structure BlacklistRow where
  ipAddress : String
  reason : String
  expiresAt : Option Nat
  source : BlacklistSource
  details : Option String
  deriving Repr, DecidableEq

/-- The service's state: the persisted store plus the in-memory
`blacklistCache` mirror. -/
structure BlacklistState where
  db : List BlacklistRow
  cache : JsMap BlacklistCacheEntry
  deriving Repr, DecidableEq

/-- `prisma.iPBlacklist.upsert` keyed by `ipAddress`. -/
def dbUpsert (db : List BlacklistRow) (row : BlacklistRow) : List BlacklistRow :=
  match db with
  | [] => [row]
  | r :: rest =>
      if r.ipAddress = row.ipAddress then row :: rest
      else r :: dbUpsert rest row

/-- The persisted row for an IP, if any. -/
def dbFind (db : List BlacklistRow) (ip : String) : Option BlacklistRow :=
  db.find? (fun r => r.ipAddress = ip)

/-- `IPBlacklistService.isBlacklisted(ipAddress)` (lines 273-287): a
synchronous map lookup, lazily deleting an entry whose `expiresAt` has
passed.  Returns the boolean together with the cache after the lookup (the
only mutation is the lazy eviction; no store or network access occurs). -/
def isBlacklisted (nowMs : Nat) (cache : JsMap BlacklistCacheEntry)
    (ip : String) : Bool × JsMap BlacklistCacheEntry :=
  match jsMapGet cache ip with
  | none => (false, cache)
  | some entry =>
      match entry.expiresAt with
      | some e =>
          if e < nowMs then (false, jsMapDelete cache ip) else (true, cache)
      | none => (true, cache)

/-- `IPBlacklistService.getBlacklistReason(ipAddress)` (lines 290-293): a
plain lookup that neither consults `expiresAt` nor mutates the cache. -/
def getBlacklistReason (cache : JsMap BlacklistCacheEntry) (ip : String) :
    Option String :=
  match jsMapGet cache ip with
  | some entry => some entry.reason
  | none => none

/-- `IPBlacklistService.addToBlacklist(data)` (lines 296-346), success
path: compute `expiresAt` (`data.duration ? now + duration min : null`,
so a missing or zero duration means permanent), upsert the persisted row,
then update the cache.  The catch branch (store failure → `false`, no
cache update) is not modelled; claims about `add` presuppose it
succeeded. -/
def addToBlacklist (nowMs : Nat) (st : BlacklistState) (ip reason : String)
    (duration : Option Nat) (source : BlacklistSource)
    (details : Option String) : BlacklistState :=
  let expiresAt : Option Nat :=
    match duration with
    | some d => if d ≠ 0 then some (nowMs + d * 60 * 1000) else none
    | none => none
  let row : BlacklistRow :=
    { ipAddress := ip, reason := reason, expiresAt := expiresAt,
      source := source, details := details }
  { db := dbUpsert st.db row
    cache := jsMapSet st.cache ip ⟨reason, expiresAt⟩ }

/-- A security-log event as emitted by `AuditService.logSecurityEvent`
(only the fields `handleSuspiciousActivity` sets). -/
structure SecurityEvent where
  action : String
  ipAddress : String
  severity : Severity
  deriving Repr, DecidableEq

/-- `IPBlacklistService.handleSuspiciousActivity(data)` (lines 367-423):
when `count >= threshold`, add an AUTOMATIC blacklist entry whose duration
is keyed by the activity type and emit a HIGH-severity security event;
otherwise do nothing.  Returns the new state and the emitted events. -/
def handleSuspiciousActivity (nowMs : Nat) (st : BlacklistState)
    (ip activity : String) (count threshold : Nat) (details : Option String) :
    BlacklistState × List SecurityEvent :=
  if threshold ≤ count then
    let reason := "Suspicious activity detected: " ++ activity ++ " (" ++
      Nat.repr count ++ " attempts)"
    let duration : Nat :=
      if activity = "LOGIN_FAILED" then 30
      else if activity = "RATE_LIMIT_EXCEEDED" then 60
      else if activity = "UNAUTHORIZED_ACCESS" then 120
      else if activity = "FILE_UPLOAD_VIOLATION" then 240
      else 60
    let st' := addToBlacklist nowMs st ip reason (some duration)
      BlacklistSource.AUTOMATIC details
    (st', [{ action := "SUSPICIOUS_ACTIVITY", ipAddress := ip,
             severity := Severity.HIGH }])
  else (st, [])

/-! ## Helper lemmas -/

/-- `any` of a constant predicate over a non-empty list is that constant. -/
theorem any_const_of_ne_nil {α : Type} {l : List α} {b : Bool} (h : l ≠ []) :
    l.any (fun _ => b) = b := by
  cases l with
  | nil => exact absurd rfl h
  | cons x xs =>
      cases b with
      | true => simp
      | false => simp

/-- The verification loop of `verifyTOTP` recomputes the current-step code
on every iteration, so for any window it accepts exactly the code of the
verifier's current time step: the `window` parameter has no effect. -/
theorem verifyTOTP_eq_current (secret code : String) (window nowMs : Nat) :
    verifyTOTP secret code window nowMs =
      (code == generateTOTP secret 30 nowMs) := by
  unfold verifyTOTP
  apply any_const_of_ne_nil
  intro h
  have := congrArg List.length h
  simp at this

/-- A `jsMapSet` insertion is visible to `jsMapGet` at the same key. -/
theorem jsMapGet_jsMapSet_self {α : Type} (m : JsMap α) (k : String) (v : α) :
    jsMapGet (jsMapSet m k v) k = some v := by
  induction m with
  | nil => simp [jsMapSet, jsMapGet]
  | cons p rest ih =>
      by_cases h : p.1 = k
      · simp [jsMapSet, jsMapGet, h]
      · simp [jsMapSet, jsMapGet, h, ih]

/-- `dbUpsert` makes its row the one found for its key. -/
theorem dbFind_dbUpsert_self (db : List BlacklistRow) (row : BlacklistRow) :
    dbFind (dbUpsert db row) row.ipAddress = some row := by
  induction db with
  | nil => simp [dbUpsert, dbFind, List.find?]
  | cons r rest ih =>
      by_cases h : r.ipAddress = row.ipAddress
      · simp [dbUpsert, dbFind, List.find?, h]
      · simp only [dbUpsert, h, if_false]
        simpa [dbFind, List.find?, h] using ih

/-! ## C2: verify of a freshly generated code -/

/-- C2: for every secret and every fixed current time (and any window),
verifying the code produced by the generator at that same time succeeds:
`verifyTOTP secret (generateTOTP secret 30 now) window now = true` when
both are evaluated at the same time instant. -/
theorem verify_of_generated_code_succeeds (secret : String)
    (window nowMs : Nat) :
    verifyTOTP secret (generateTOTP secret 30 nowMs) window nowMs = true := by
  rw [verifyTOTP_eq_current]
  exact beq_self_eq_true _

/-! ## C7: audit statistics success rate -/

/-- C7: for every retention window (cutoff date) and store contents, the
audit statistics' `successRate` equals
`(totalActions - failedActions) / totalActions * 100` when
`totalActions > 0`, and equals `0` when `totalActions = 0` (no division by
zero). -/
theorem audit_success_rate_formula (startDate : Int)
    (auditLog : List AuditRow) (securityLog : List SecurityRow) :
    (0 < (getAuditStats startDate auditLog securityLog).totalActions →
      (getAuditStats startDate auditLog securityLog).successRate =
        (((getAuditStats startDate auditLog securityLog).totalActions : ℚ) -
          ((getAuditStats startDate auditLog securityLog).failedActions : ℚ)) /
          ((getAuditStats startDate auditLog securityLog).totalActions : ℚ) *
          100) ∧
    ((getAuditStats startDate auditLog securityLog).totalActions = 0 →
      (getAuditStats startDate auditLog securityLog).successRate = 0) := by
  constructor
  · intro h
    simp only [getAuditStats] at h ⊢
    rw [if_pos h]
  · intro h
    simp only [getAuditStats] at h ⊢
    rw [if_neg]
    omega

/-- Witness for C7 at a concrete store: two in-window audit rows, one
failed, give a success rate of 50; an empty store gives 0. -/
theorem audit_success_rate_formula_witness :
    (getAuditStats 0 [⟨5, true⟩, ⟨7, false⟩] []).successRate =
        (((getAuditStats 0 [⟨5, true⟩, ⟨7, false⟩] []).totalActions : ℚ) -
          ((getAuditStats 0 [⟨5, true⟩, ⟨7, false⟩] []).failedActions : ℚ)) /
          ((getAuditStats 0 [⟨5, true⟩, ⟨7, false⟩] []).totalActions : ℚ) *
          100 ∧
    (getAuditStats 0 [] []).successRate = 0 :=
  ⟨(audit_success_rate_formula 0 [⟨5, true⟩, ⟨7, false⟩] []).1 (by decide),
   (audit_success_rate_formula 0 [] []).2 (by decide)⟩

/-! ## C9: getBlacklistReason ignores expiry -/

/-- C9: unlike `isBlacklisted`, `getBlacklistReason` never consults the
entry's expiry: for an IP whose cached entry has an `expiresAt` already in
the past but not yet lazily evicted, `getBlacklistReason` still returns
the stored reason while `isBlacklisted` reports false; and being a plain
lookup it returns no modified cache (its Lean embedding is a pure function
of the cache, mirroring the mutation-free source method). -/
theorem blacklist_reason_ignores_expiry (cache : JsMap BlacklistCacheEntry)
    (ip reason : String) (e nowMs : Nat)
    (hGet : jsMapGet cache ip = some ⟨reason, some e⟩)
    (hExpired : e < nowMs) :
    getBlacklistReason cache ip = some reason ∧
      (isBlacklisted nowMs cache ip).1 = false := by
  constructor
  · simp [getBlacklistReason, hGet]
  · simp [isBlacklisted, hGet, hExpired]

/-- Witness for C9: a concrete cache whose only entry expired at time 100,
looked up at time 200. -/
theorem blacklist_reason_ignores_expiry_witness :
    getBlacklistReason [("9.9.9.9", ⟨"abuse", some 100⟩)] "9.9.9.9" =
        some "abuse" ∧
      (isBlacklisted 200 [("9.9.9.9", ⟨"abuse", some 100⟩)] "9.9.9.9").1 =
        false :=
  blacklist_reason_ignores_expiry [("9.9.9.9", ⟨"abuse", some 100⟩)]
    "9.9.9.9" "abuse" 100 200 (by decide) (by decide)

/-! ## C1: the TOTP verification window has no effect -/

set_option maxRecDepth 40000

/-- C1 (failing input): the claim says `verifyCode(secret, code, window=1)`
accepts the code generated one time step earlier.  The code does not: with
secret `"ABC"`, the code generated at `t = 0` (counter 0) is `"328482"`
and the code of the verifier's current step at `t = 30000 ms` (counter 1)
is `"812658"`; verification of the old code at `t = 30000` with
`window = 1` returns `false`, because the loop recomputes the
current-step code on every iteration (the per-step counter of the source,
line 89, is computed but never used).  The claim describes the spec's
stated intent (§4.2, §9 of the spec flag exactly this defect), so this is
a bug in the code. -/
theorem totp_window_collapsed_failing_input :
    generateTOTP "ABC" 30 0 = "328482" ∧
    generateTOTP "ABC" 30 30000 = "812658" ∧
    verifyTOTP "ABC" (generateTOTP "ABC" 30 0) 1 30000 = false := by
  have h0 : generateTOTP "ABC" 30 0 = "328482" := by decide
  have h1 : generateTOTP "ABC" 30 30000 = "812658" := by decide
  refine ⟨h0, h1, ?_⟩
  rw [verifyTOTP_eq_current, h0, h1]
  decide

/-! ## C5: blacklist add / expiry -/

/-- C5 (counterexample): the claim says `isBlacklisted(ip)` is false at
any time at least `d` minutes after `add(ip, …, durationMinutes := d, …)`.
It is not: (a) at exactly `d` minutes the entry is still reported
blacklisted, because the expiry test is the strict `expiresAt < now`; and
(b) `durationMinutes = 0` is falsy in JS, so the entry is permanent and
still blacklisted an hour later. -/
theorem blacklist_expiry_boundary_counterexample :
    (isBlacklisted 600000
        (addToBlacklist 0 ⟨[], []⟩ "5.5.5.5" "abuse" (some 10)
          BlacklistSource.MANUAL none).cache "5.5.5.5").1 = true ∧
    (isBlacklisted 3600000
        (addToBlacklist 0 ⟨[], []⟩ "5.5.5.5" "abuse" (some 0)
          BlacklistSource.MANUAL none).cache "5.5.5.5").1 = true := by
  constructor <;> decide

/-- C5 (amended): for every IP and every positive duration `d`,
`isBlacklisted ip` is true immediately after a successful
`add(ip, …, durationMinutes := d, …)`, and false at any time strictly more
than `d` minutes after the add with no intervening write (at exactly `d`
minutes the entry still counts, and `d = 0` is treated as permanent); in
the expired case the lookup also removes the entry from the in-memory map
(lazy eviction), consulting only the map — `isBlacklisted` takes and
returns only the cache, with no store access. -/
theorem blacklist_add_then_expire (st : BlacklistState) (ip reason : String)
    (details : Option String) (src : BlacklistSource) (nowMs d t : Nat)
    (hd : 1 ≤ d) (ht : nowMs + d * 60 * 1000 < t) :
    (isBlacklisted nowMs
        (addToBlacklist nowMs st ip reason (some d) src details).cache
        ip).1 = true ∧
    (isBlacklisted t
        (addToBlacklist nowMs st ip reason (some d) src details).cache
        ip).1 = false ∧
    (isBlacklisted t
        (addToBlacklist nowMs st ip reason (some d) src details).cache
        ip).2 =
      jsMapDelete
        (addToBlacklist nowMs st ip reason (some d) src details).cache
        ip := by
  have hne : d ≠ 0 := by omega
  simp only [addToBlacklist, if_pos hne, isBlacklisted,
    jsMapGet_jsMapSet_self]
  refine ⟨?_, ?_, ?_⟩
  · rw [if_neg]; omega
  · rw [if_pos]; omega
  · rw [if_pos]; omega

/-- Witness for C5 (amended): adding `5.5.5.5` for 10 minutes at time 0:
blacklisted at time 0, not blacklisted (and lazily evicted) at
10 minutes + 1 ms. -/
theorem blacklist_add_then_expire_witness :
    (isBlacklisted 0
        (addToBlacklist 0 ⟨[], []⟩ "5.5.5.5" "abuse" (some 10)
          BlacklistSource.MANUAL none).cache "5.5.5.5").1 = true ∧
    (isBlacklisted 600001
        (addToBlacklist 0 ⟨[], []⟩ "5.5.5.5" "abuse" (some 10)
          BlacklistSource.MANUAL none).cache "5.5.5.5").1 = false ∧
    (isBlacklisted 600001
        (addToBlacklist 0 ⟨[], []⟩ "5.5.5.5" "abuse" (some 10)
          BlacklistSource.MANUAL none).cache "5.5.5.5").2 =
      jsMapDelete
        (addToBlacklist 0 ⟨[], []⟩ "5.5.5.5" "abuse" (some 10)
          BlacklistSource.MANUAL none).cache "5.5.5.5" :=
  blacklist_add_then_expire ⟨[], []⟩ "5.5.5.5" "abuse" none
    BlacklistSource.MANUAL 0 10 600001 (by decide) (by decide)

/-! ## C6: automatic escalation -/

/-- C6: calling the automatic-escalation handler with
`observedCount ≥ threshold` for activity `LOGIN_FAILED` creates a
persisted blacklist row with source AUTOMATIC and an expiry 30 minutes
out, makes `isBlacklisted ip` true up to that expiry, and emits exactly
one HIGH-severity security-log event; with `observedCount < threshold` it
creates no entry, emits nothing, and leaves the state unchanged. -/
theorem auto_escalation_threshold (st : BlacklistState) (ip : String)
    (count threshold nowMs : Nat) (details : Option String) :
    (threshold ≤ count →
      dbFind
          (handleSuspiciousActivity nowMs st ip "LOGIN_FAILED" count
            threshold details).1.db ip =
        some { ipAddress := ip,
               reason := "Suspicious activity detected: " ++ "LOGIN_FAILED" ++
                 " (" ++ Nat.repr count ++ " attempts)",
               expiresAt := some (nowMs + 30 * 60 * 1000),
               source := BlacklistSource.AUTOMATIC,
               details := details } ∧
      (∀ t, t ≤ nowMs + 30 * 60 * 1000 →
        (isBlacklisted t
            (handleSuspiciousActivity nowMs st ip "LOGIN_FAILED" count
              threshold details).1.cache ip).1 = true) ∧
      (handleSuspiciousActivity nowMs st ip "LOGIN_FAILED" count threshold
          details).2 =
        [⟨"SUSPICIOUS_ACTIVITY", ip, Severity.HIGH⟩]) ∧
    (count < threshold →
      handleSuspiciousActivity nowMs st ip "LOGIN_FAILED" count threshold
          details = (st, [])) := by
  constructor
  · intro h
    simp only [handleSuspiciousActivity, if_pos h, addToBlacklist,
      eq_self_iff_true, if_true]
    refine ⟨?_, ?_, ?_⟩
    · simpa using dbFind_dbUpsert_self st.db
        { ipAddress := ip,
          reason := "Suspicious activity detected: " ++ "LOGIN_FAILED" ++
            " (" ++ Nat.repr count ++ " attempts)",
          expiresAt := some (nowMs + 30 * 60 * 1000),
          source := BlacklistSource.AUTOMATIC,
          details := details }
    · intro t htle
      have hlt : ¬ (nowMs + 30 * 60 * 1000 < t) := by omega
      simp [isBlacklisted, jsMapGet_jsMapSet_self, hlt]
    · trivial
  · intro h
    have : ¬ threshold ≤ count := by omega
    simp [handleSuspiciousActivity, this]

/-- Witness for C6: threshold 5 at time 0 for IP `7.7.7.7` — count 5
creates the AUTOMATIC row expiring at 30 minutes, blacklisted at the
30-minute mark, with one HIGH event; count 4 changes nothing. -/
theorem auto_escalation_threshold_witness :
    dbFind
        (handleSuspiciousActivity 0 ⟨[], []⟩ "7.7.7.7" "LOGIN_FAILED" 5 5
          none).1.db "7.7.7.7" =
      some { ipAddress := "7.7.7.7",
             reason := "Suspicious activity detected: " ++ "LOGIN_FAILED" ++
               " (" ++ Nat.repr 5 ++ " attempts)",
             expiresAt := some (0 + 30 * 60 * 1000),
             source := BlacklistSource.AUTOMATIC, details := none } ∧
    (isBlacklisted 1800000
        (handleSuspiciousActivity 0 ⟨[], []⟩ "7.7.7.7" "LOGIN_FAILED" 5 5
          none).1.cache "7.7.7.7").1 = true ∧
    (handleSuspiciousActivity 0 ⟨[], []⟩ "7.7.7.7" "LOGIN_FAILED" 5 5
        none).2 = [⟨"SUSPICIOUS_ACTIVITY", "7.7.7.7", Severity.HIGH⟩] ∧
    handleSuspiciousActivity 0 ⟨[], []⟩ "7.7.7.7" "LOGIN_FAILED" 4 5 none =
      (⟨[], []⟩, []) := by
  have h5 := auto_escalation_threshold ⟨[], []⟩ "7.7.7.7" 5 5 0 none
  have h4 := auto_escalation_threshold ⟨[], []⟩ "7.7.7.7" 4 5 0 none
  exact ⟨(h5.1 (by decide)).1, (h5.1 (by decide)).2.1 1800000 (by decide),
    (h5.1 (by decide)).2.2, h4.2 (by decide)⟩

/-! ## C8: geolocation resolution fails soft -/

/-- C8: for every non-local IP on a cache miss, a thrown provider call or
a non-success provider status makes `getLocation` return `null` without
touching the cache; the cache is updated exactly on provider success (a
failed resolution is never inserted). -/
theorem geolocation_fail_soft (nowMs : Nat) (cache : GeoCache)
    (provider : Option ProviderResponse) (ip : String)
    (hLocal : isLocalIP ip = false)
    (hMiss : ∀ dat ts, jsMapGet cache ip = some (dat, ts) →
      CACHE_DURATION ≤ nowMs - ts) :
    (provider = none →
      getLocation nowMs cache provider ip = (none, cache)) ∧
    (∀ resp, provider = some resp → resp.status ≠ "success" →
      getLocation nowMs cache provider ip = (none, cache)) ∧
    (∀ resp, provider = some resp → resp.status = "success" →
      getLocation nowMs cache provider ip =
        (some (buildLocation ip resp.data),
         jsMapSet cache ip (buildLocation ip resp.data, nowMs))) := by
  have honMiss : ∀ r,
      (match jsMapGet cache ip with
        | some (dat, ts) =>
            if nowMs - ts < CACHE_DURATION then (some dat, cache) else r
        | none => r) = r := by
    intro r
    cases hc : jsMapGet cache ip with
    | none => rfl
    | some p =>
        have := hMiss p.1 p.2 (by rw [hc])
        simp only []
        rw [if_neg]
        omega
  refine ⟨?_, ?_, ?_⟩
  · intro hp
    simp only [getLocation, hp, hLocal]
    exact honMiss _
  · intro resp hp hs
    simp only [getLocation, hp, hLocal, Bool.false_eq_true, if_false,
      if_neg hs]
    exact honMiss _
  · intro resp hp hs
    simp only [getLocation, hp, hLocal, Bool.false_eq_true, if_false,
      if_pos hs]
    exact honMiss _

/-- Witness for C8: the public IP `8.8.8.8` on an empty cache — a thrown
call, a `"fail"` status, and a `"success"` status. -/
theorem geolocation_fail_soft_witness :
    getLocation 0 [] none "8.8.8.8" = (none, []) ∧
    getLocation 0 []
        (some ⟨"fail", ⟨none, none, none, none, none, none, none, none,
          none, none, none, none, none, none⟩⟩) "8.8.8.8" = (none, []) ∧
    getLocation 0 []
        (some ⟨"success", ⟨none, none, none, none, none, none, none, none,
          none, none, none, none, none, none⟩⟩) "8.8.8.8" =
      (some (buildLocation "8.8.8.8"
          ⟨none, none, none, none, none, none, none, none, none, none,
            none, none, none, none⟩),
       jsMapSet [] "8.8.8.8"
         (buildLocation "8.8.8.8"
           ⟨none, none, none, none, none, none, none, none, none, none,
             none, none, none, none⟩, 0)) := by
  refine ⟨?_, ?_, ?_⟩
  · exact (geolocation_fail_soft 0 [] none "8.8.8.8" (by decide)
      (by intro d t h; simp [jsMapGet] at h)).1 rfl
  · exact (geolocation_fail_soft 0 []
      (some ⟨"fail", ⟨none, none, none, none, none, none, none, none, none,
        none, none, none, none, none⟩⟩) "8.8.8.8" (by decide)
      (by intro d t h; simp [jsMapGet] at h)).2.1 _ rfl (by decide)
  · exact (geolocation_fail_soft 0 []
      (some ⟨"success", ⟨none, none, none, none, none, none, none, none,
        none, none, none, none, none, none⟩⟩) "8.8.8.8" (by decide)
      (by intro d t h; simp [jsMapGet] at h)).2.2 _ rfl rfl

/-! ## C10: 2FA verification fails closed -/

/-- C10: 2FA verification fails closed: for every user whose stored
credential has `twoFactorEnabled = false` or no (truthy) stored secret,
`verify2FACode` returns `{success := false, isBackupCode := false}` for
every submitted code and leaves the stored row unchanged, without
reaching the TOTP or backup-code comparisons (the result holds for
arbitrary `decrypt`, `hashFn` and salt draws, none of which are
consulted). -/
theorem verify2fa_fails_closed (decrypt : String → String)
    (hashFn : String → String → String) (salts : Nat → String)
    (nowMs : Nat) (user : TwoFactorUser) (code : String)
    (h : user.twoFactorEnabled = false ∨
      jsStrTruthy user.twoFactorSecret = false) :
    verify2FACode decrypt hashFn salts nowMs user code =
      (⟨false, false⟩, user) := by
  have hguard : ¬ (user.twoFactorEnabled ∧ jsStrTruthy user.twoFactorSecret) := by
    rcases h with h | h <;> simp [h]
  simp [verify2FACode, hguard]

/-! ## C4: region-change anomalies -/

/-- Membership in a conditional singleton list. -/
theorem mem_ite_singleton {α : Type} {c : Prop} [Decidable c] {x a : α} :
    (a ∈ (if c then [x] else ([] : List α))) ↔ (c ∧ a = x) := by
  split_ifs with h <;> simp [h]

/-- A concrete location in US / California (current login). -/
def gLocUS_CA : GeoLocation :=
  { ip := "1.1.1.1", country := "United States", countryCode := "US",
    region := "California", regionCode := "CA", city := "San Francisco",
    zip := "", latitude := 0, longitude := 0, timezone := "UTC",
    isp := "ISP", org := "Org", asInfo := "AS1", proxy := false,
    hosting := false, vpn := false, tor := false }

/-- A concrete location in Germany / Berlin (historical login). -/
def gLocDE_BE : GeoLocation :=
  { ip := "2.2.2.2", country := "Germany", countryCode := "DE",
    region := "Berlin", regionCode := "BE", city := "Berlin",
    zip := "", latitude := 0, longitude := 0, timezone := "UTC",
    isp := "ISP", org := "Org", asInfo := "AS2", proxy := false,
    hosting := false, vpn := false, tor := false }

/-- A concrete location in US / New York (historical login). -/
def gLocUS_NY : GeoLocation :=
  { ip := "3.3.3.3", country := "United States", countryCode := "US",
    region := "New York", regionCode := "NY", city := "New York",
    zip := "", latitude := 0, longitude := 0, timezone := "UTC",
    isp := "ISP", org := "Org", asInfo := "AS3", proxy := false,
    hosting := false, vpn := false, tor := false }

/-- A concrete resolver covering the three test IPs. -/
def gResolve : String → Option GeoLocation := fun ip =>
  if ip = "1.1.1.1" then some gLocUS_CA
  else if ip = "2.2.2.2" then some gLocDE_BE
  else if ip = "3.3.3.3" then some gLocUS_NY
  else none

/-- C4 (counterexample): the claim says that when the country code also
differs, only COUNTRY_CHANGE is emitted, not REGION_CHANGE.  The code has
no country-same guard on the region check: a login from US/CA after a
history of DE/BE emits both COUNTRY_CHANGE and REGION_CHANGE. -/
theorem region_change_with_country_change_counterexample :
    (detectAnomalies gResolve ["2.2.2.2"] 12 "1.1.1.1").map
        (fun a => a.type) =
      [AnomalyType.COUNTRY_CHANGE, AnomalyType.REGION_CHANGE] := by
  decide

/-- C4 (amended): for every login whose current location resolves and
whose user has prior login history with a resolvable most recent
historical location, `detectAnomalies` emits a REGION_CHANGE anomaly with
severity MEDIUM and risk score 0.6 exactly when the most recent historical
region code is non-empty and differs from the current region code — with
no regard to the country code, so when the country also differs,
COUNTRY_CHANGE and REGION_CHANGE are both emitted. -/
theorem region_change_condition (resolve : String → Option GeoLocation)
    (previousLogins : List String) (currentHour : Nat) (currentIP : String)
    (loc p : GeoLocation)
    (hres : resolve currentIP = some loc)
    (hne : previousLogins.isEmpty = false)
    (hprev : ((jsSetDedup (previousLogins.filter (fun s => s ≠ ""))).map
        resolve).getD 0 none = some p) :
    (∃ a ∈ detectAnomalies resolve previousLogins currentHour currentIP,
        a.type = AnomalyType.REGION_CHANGE ∧ a.severity = Severity.MEDIUM ∧
          a.riskScore = 0.6) ↔
      (p.regionCode ≠ "" ∧ p.regionCode ≠ loc.regionCode) := by
  simp only [detectAnomalies, hres, hne, hprev, Bool.false_eq_true,
    if_false]
  constructor
  · rintro ⟨a, ha, hty, hsev, hrisk⟩
    rcases List.mem_append.mp ha with h | h
    rotate_left
    · rw [mem_ite_singleton] at h
      obtain ⟨-, rfl⟩ := h
      simp at hty
    rcases List.mem_append.mp h with h | h
    rotate_left
    · rw [mem_ite_singleton] at h
      obtain ⟨-, rfl⟩ := h
      simp at hty
    rcases List.mem_append.mp h with h | h
    rotate_left
    · rw [mem_ite_singleton] at h
      obtain ⟨-, rfl⟩ := h
      simp at hty
    rcases List.mem_append.mp h with h | h
    · rw [mem_ite_singleton] at h
      obtain ⟨-, rfl⟩ := h
      simp at hty
    · rw [mem_ite_singleton] at h
      obtain ⟨hc, rfl⟩ := h
      exact hc
  · intro h
    refine ⟨_, List.mem_append.mpr (Or.inl (List.mem_append.mpr (Or.inl
      (List.mem_append.mpr (Or.inl (List.mem_append.mpr (Or.inr
        (mem_ite_singleton.mpr ⟨h, rfl⟩)))))))), rfl, rfl, rfl⟩

/-- Witness for C4 (amended): current login from US/CA after a history in
US/NY (same country, different region) does emit the MEDIUM / 0.6
REGION_CHANGE anomaly. -/
theorem region_change_condition_witness :
    ∃ a ∈ detectAnomalies gResolve ["3.3.3.3"] 12 "1.1.1.1",
      a.type = AnomalyType.REGION_CHANGE ∧ a.severity = Severity.MEDIUM ∧
        a.riskScore = 0.6 :=
  (region_change_condition gResolve ["3.3.3.3"] 12 "1.1.1.1" gLocUS_CA
    gLocUS_NY (by decide) (by decide) (by decide)).mpr (by decide)

/-! ## C3: backup-code verification never succeeds (enrollment salt lost) -/

/-- With the always-empty salt that `verify2FACode` passes, the comparison
at index `i` checks the submitted code hashed under that iteration's
fresh random salt `salts i`; when none of these recomputations hits a
stored hash, the scan finds nothing. -/
theorem firstMatch_eq_none (hashFn : String → String → String)
    (salts : Nat → String) (code : String) (l : List String)
    (h : ∀ i, i < l.length → hashFn code (salts i) ≠ l.getD i "") :
    firstMatchingBackupCode hashFn salts code l = none := by
  induction l generalizing salts with
  | nil => rfl
  | cons stored rest ih =>
      have h0 : hashFn code (salts 0) ≠ stored := by
        simpa using h 0 (by simp)
      have hv : verifyHash hashFn (salts 0) code stored "" = false := by
        simp [verifyHash, encHash, h0]
      have hrest := ih (fun i => salts (i + 1))
        (fun i hi => by simpa using h (i + 1) (by simpa using hi))
      simp [firstMatchingBackupCode, hv, hrest]

/-- A toy salted hash, used to exhibit C3's failing input concretely: it
keeps the salt visible in the digest, so hashes under different salts
differ. -/
def concatHash : String → String → String := fun d s => d ++ ":" ++ s

/-- C3: the claim states the spec's rule (§4.1, §8) — a stored backup code
verifies successfully once, is consumed, and only a second use fails.
The code cannot exhibit this behavior: `verify2FACode` passes the
JS-falsy salt `''` to `EncryptionService.verifyHash`, which therefore
recomputes PBKDF2 under a fresh random salt on every comparison, while
`enable2FA` stored only the hashes and discarded the enrollment salts.
Whenever none of the fresh-salt recomputations collides with a stored
hash — for any salt-sensitive hash, so for real PBKDF2 essentially
always — verification of an enrolled backup code fails outright with
`{success := false, isBackupCode := false}` and consumes nothing. -/
theorem backup_code_never_accepted (decrypt : String → String)
    (hashFn : String → String → String) (salts : Nat → String)
    (nowMs : Nat) (user : TwoFactorUser) (code : String)
    (hEn : user.twoFactorEnabled = true)
    (hSec : jsStrTruthy user.twoFactorSecret = true)
    (hT : verifyTOTP (decrypt (user.twoFactorSecret.getD "")) code 1 nowMs =
      false)
    (hFresh : ∀ i, i < user.twoFactorBackupCodes.length →
      hashFn code (salts i) ≠ user.twoFactorBackupCodes.getD i "") :
    verify2FACode decrypt hashFn salts nowMs user code =
      (⟨false, false⟩, user) := by
  have hm := firstMatch_eq_none hashFn salts code
    user.twoFactorBackupCodes hFresh
  simp [verify2FACode, hEn, hSec, hT, hm]

/-- Witness for C3 at the failing input: backup code `"ABCD1234"` enrolled
the way `enable2FA` stores it — hash `concatHash "ABCD1234" "SALT0"`
under the enrollment salt `"SALT0"`, which is then discarded — and
resubmitted while the verification call draws the fresh salt `"SALT1"`:
verification fails and the stored list is untouched, although the
submitted value is exactly the enrolled backup code. -/
theorem backup_code_never_accepted_witness :
    verify2FACode (fun s => s) concatHash (fun _ => "SALT1") 5000
        ⟨true, some "SECRETX", [concatHash "ABCD1234" "SALT0"]⟩
        "ABCD1234" =
      (⟨false, false⟩,
       ⟨true, some "SECRETX", [concatHash "ABCD1234" "SALT0"]⟩) := by
  have hT : verifyTOTP "SECRETX" "ABCD1234" 1 5000 = false := by
    rw [verifyTOTP_eq_current]; decide
  exact backup_code_never_accepted (fun s => s) concatHash
    (fun _ => "SALT1") 5000
    ⟨true, some "SECRETX", [concatHash "ABCD1234" "SALT0"]⟩ "ABCD1234" rfl
    (by decide) hT
    (fun i hi => by
      simp only [List.length_singleton] at hi
      obtain rfl : i = 0 := by omega
      decide)

/-- Witness for C10: a user row with 2FA disabled (but stale secret and
backup codes still present) is rejected without state change. -/
theorem verify2fa_fails_closed_witness :
    verify2FACode (fun s => s) (fun d _ => d) (fun _ => "S") 1000
        ⟨false, some "STALE", ["AA11BB22"]⟩ "AA11BB22" =
      (⟨false, false⟩, ⟨false, some "STALE", ["AA11BB22"]⟩) :=
  verify2fa_fails_closed (fun s => s) (fun d _ => d) (fun _ => "S") 1000
    ⟨false, some "STALE", ["AA11BB22"]⟩ "AA11BB22" (Or.inl rfl)

end Squirli
